import Mathlib

/-
Verification of the llxprt-code cherry-pick planning scripts.

The repository contains three Python generators:
  * project-plans/20251215gemerge/generate_cherries.py  (v0.9.0 -> v0.10.0)
  * project-plans/20260104gmerge/generate_cherries.py   (v0.10.0 -> v0.11.3)
  * project-plans/20260104gmerge/generate_plan_artifacts.py

This file gives a shallow embedding of their data model (Commit, Override,
Batch), of the classifier `decide`, of the decision tables, of `decision_for`
and of the batch planner `build_batches`, and proves the spec's claims about
them.
-/

/-- One upstream commit's metadata, mirroring the `Commit` TypedDict /
dataclass shared by all three scripts (fields sha, short, date, subject,
files, areas, is_merge). -/
structure Commit where
  sha : String
  short : String
  date : String
  subject : String
  files : List String
  areas : List String
  is_merge : Bool
deriving DecidableEq, Repr

/-- Python's `needle.startswith`-style test on character lists: does the
second list start with the first? -/
def listStarts : List Char → List Char → Bool
  | [], _ => true
  | _ :: _, [] => false
  | a :: as, b :: bs => a == b && listStarts as bs

/-- Python's `needle in hay` substring test on character lists. -/
def listHas (needle : List Char) : List Char → Bool
  | [] => needle.isEmpty
  | b :: bs => listStarts needle (b :: bs) || listHas needle bs

/-- Python's `s.startswith(p)`. -/
def strStarts (s p : String) : Bool := listStarts p.data s.data

/-- Python's `needle in hay` for strings. -/
def strHas (hay needle : String) : Bool := listHas needle.data hay.data

/-- Python's `s.lower()` (ASCII-faithful, per-character lowering). -/
def lowerStr (s : String) : String := String.mk (s.data.map Char.toLower)

namespace G1215

/-- A curated per-commit decision, mirroring the frozen dataclass
`Override(decision, rationale)` of generate_cherries.py (20251215gemerge).
Decisions are the literal strings "PICK", "SKIP", "REIMPLEMENT". -/
structure Override where
  decision : String
  rationale : String
deriving DecidableEq, Repr

/-- The entries of the Python dict literal `OVERRIDES`, in source order.
The key "7b06a0be" appears twice in the source (with equal values); the list
keeps both occurrences so that dict semantics can be modelled faithfully. -/
def OVERRIDES : List (String × Override) := [
  ("b92e3bca", Override.mk "PICK" "MCP: server removal persists to settings"),
  ("1962b51d", Override.mk "PICK" "CLI: positional prompt args with --extensions (drop Clearcut test hunk)"),
  ("f2852056", Override.mk "PICK" "CLI: strip ANSI codes from extension MCP server output"),
  ("76b1deec", Override.mk "PICK" "Core: smart-edit refreshes file contents when externally modified"),
  ("741b57ed", Override.mk "PICK" "Windows: spawn via shell for compatibility"),
  ("06920402", Override.mk "PICK" "Core: prevent context window overflow"),
  ("a044c259", Override.mk "PICK" "UX: show /permissions hint when folder is untrusted"),
  ("b60c8858", Override.mk "PICK" "UX: shorten context overflow message when <50% limit"),
  ("cd354aeb", Override.mk "PICK" "Perf: avoid unnecessary UI re-renders"),
  ("5f96eba5", Override.mk "PICK" "CLI: do not exit on non-fatal tool errors"),
  ("971eb64e", Override.mk "PICK" "Memory: /memory refresh respects trusted filters"),
  ("affd3cae", Override.mk "PICK" "Auth UX: prevent garbled input during Google OAuth prompt"),
  ("c6af4eaa", Override.mk "PICK" "Security: respect folder-trust flags in FileCommandLoader"),
  ("0a7ee677", Override.mk "PICK" "Accessibility: show notifications in screen reader mode"),
  ("bf0f61e6", Override.mk "PICK" "Extensions: show install path; fix isWorkspaceTrusted check"),
  ("265d39f3", Override.mk "PICK" "Shell: improve execution service reliability"),
  ("77162750", Override.mk "PICK" "Default: enable useSmartEdit by default (behavior change)"),
  ("6787d42d", Override.mk "PICK" "Perf: optimize Windows IDE process detection"),
  ("a3fe9279", Override.mk "PICK" "Compression: avoid summarizing too-short history"),
  ("249a193c", Override.mk "PICK" "Prompts: optimize shell tool command guidance"),
  ("3ba4ba79", Override.mk "PICK" "Prompts: remove workflow examples"),
  ("9e8c7676", Override.mk "PICK" "Non-interactive: record tool calls"),
  ("b2ba67f3", Override.mk "PICK" "Trust dialog: Esc exits on launch"),
  ("dabe161a", Override.mk "PICK" "UI: don't accept input until slash commands load"),
  ("467a305f", Override.mk "PICK" "UX: enable interactive shell by default (matches llxprt intent)"),
  ("0cd490a9", Override.mk "REIMPLEMENT" "Gemini/GCA: add GOOGLE_CLOUD_PROJECT_ID fallback"),
  ("0b6c0200", Override.mk "REIMPLEMENT" "Core: failed-response retry via extra prompt (multi-provider turn/client changes)"),
  ("ada179f5", Override.mk "REIMPLEMENT" "Scheduler: upstream forces sequential tool calls; port carefully into llxprt batching"),
  ("7c1a9024", Override.mk "REIMPLEMENT" "Retry: merge specific fetch error retry logic into llxprt retry.ts (has custom failover)"),
  ("518caae6", Override.mk "REIMPLEMENT" "Paths: upstream centralizes '.gemini' dir; llxprt prefers '.llxprt' + compat"),
  ("a6e00d91", Override.mk "REIMPLEMENT" "Extensions: UX fixes bundled with Clearcut logging; port CLI changes without Clearcut"),
  ("8980276b", Override.mk "PICK" "Extensions/A2A: align extension typings across CLI/core/a2a-server (high churn but reduces future merge pain)"),
  ("8ac2c684", Override.mk "REIMPLEMENT" "A2A: consider bundling strategy for a2a-server; our release/bundle layout differs from upstream"),
  ("1af3fef3", Override.mk "PICK" "Tests: disable auto-update in integration tests (reduce flake)"),
  ("603ec2b2", Override.mk "PICK" "Tests: add deflake runner script to reproduce flakes quickly"),
  ("118aade8", Override.mk "PICK" "Docs: small citations mention (we already support citations)"),
  ("8d8a2ab6", Override.mk "REIMPLEMENT" "Docs/Tests: add deflake docs + small deflake.js tweak; our docs structure differs (no docs/integration-tests.md)"),
  ("bcbcaeb8", Override.mk "REIMPLEMENT" "Docs: upstream updates faq/extensions docs; port relevant info into llxprt docs layout"),
  ("bd6bba8d", Override.mk "REIMPLEMENT" "Docs: deflake command doc tweak; our docs structure differs (no docs/integration-tests.md)"),
  ("433ca84c", Override.mk "PICK" "Tests: log actual output in validateModelOutput on failure (debugging flakes)"),
  ("6d84d4dc", Override.mk "PICK" "Tests: make run_shell_command integration prompt more deterministic"),
  ("a8379d1f", Override.mk "PICK" "Tests: update/enable prompt for MCP add tool integration test"),
  ("5e688b81", Override.mk "REIMPLEMENT" "Tests: upstream skips a flaky replace case; decide whether to tighten tool allowlist or follow upstream skip to reduce flake"),
  ("5aab793c", Override.mk "REIMPLEMENT" "Tests: fixes interactive FS test flake, but llxprt doesn't currently carry file-system-interactive.test.ts"),
  ("ed37b7c5", Override.mk "PICK" "Tests: fix isWorkspaceTrusted mocks (stability)"),
  ("21062dd3", Override.mk "PICK" "Tests: clean up extension tests"),
  ("c82c2c2b", Override.mk "REIMPLEMENT" "A2A: add a2a-server bin + server entry tweaks; port without upstream lockfile churn and with llxprt package naming"),
  ("558be873", Override.mk "REIMPLEMENT" "UI: large narrow-screen margin + full-width setting change; port selectively to avoid conflicts with llxprt UI work"),
  ("65b9e367", Override.mk "PICK" "Docs: fix broken links in docs/architecture.md"),
  ("249ea559", Override.mk "PICK" "Tests: fix flaky run_shell_command test by using date command"),
  ("849cd1f9", Override.mk "REIMPLEMENT" "Docs: upstream changelog link fix; llxprt uses different release-notes layout"),
  ("32db4ff6", Override.mk "REIMPLEMENT" "Tests: upstream disables flaky interactive tests + tweaks replace; port relevant non-skip improvements to llxprt suite"),
  ("a5e47c62", Override.mk "PICK" "Docs: tos-privacy updates are relevant"),
  ("ab3804d8", Override.mk "REIMPLEMENT" "Tools: upstream web search tool-name refactor; llxprt renamed to google-web-search/exa-web-search"),
  ("a64bb433", Override.mk "REIMPLEMENT" "Tests: simplify auth handling in interactive tests; port changes that touch files llxprt still has (ctrl-c-exit/test-helper)"),
  ("37678acb", Override.mk "REIMPLEMENT" "Docs: upstream get-started docs restructuring doesn't match llxprt docs layout; port content selectively"),
  ("ead8928c", Override.mk "PICK" "Tests: deflake json-output integration test"),
  ("cd919346", Override.mk "PICK" "Tests: clean up integration test warnings (test-helper)"),
  ("5dc7059b", Override.mk "REIMPLEMENT" "Tests: introduces InteractiveRun class but touches missing interactive test files; port scaffolding where applicable"),
  ("28e667bd", Override.mk "PICK" "Tests: add explicit failure-output instructions to json-output integration test"),
  ("19c1d734", Override.mk "REIMPLEMENT" "Docs: add bundle command info to integration-test docs; llxprt lacks docs/integration-tests.md"),
  ("4a5ef4d9", Override.mk "REIMPLEMENT" "Tests: fixes interactive FS flake and extends test-helper; llxprt missing file-system-interactive.test.ts"),
  ("a73b8145", Override.mk "REIMPLEMENT" "Tests: rename expect helpers; touches missing interactive test files but also impacts ctrl-c-exit/test-helper"),
  ("c4bd7594", Override.mk "REIMPLEMENT" "Docs: document showInDialog settings; upstream doc path differs (docs/get-started/configuration.md vs llxprt docs/cli/configuration.md)"),
  ("907e51ac", Override.mk "SKIP" "Adds .gemini command file; llxprt command/doc conventions differ (revisit if adopting upstream command packs)"),
  ("cfb71b9d", Override.mk "SKIP" "A2A publishing wiring was reverted upstream and is repo/workflow-specific; implement llxprt publishing separately if needed"),
  ("c23eb84b", Override.mk "PICK" "A2A: remove private flag from a2a-server package"),
  ("f3424844", Override.mk "SKIP" "Revert of upstream A2A publishing wiring; irrelevant if we skip publishing-workflow commits"),
  ("7b06a0be", Override.mk "PICK" "Tests: use rmSync instead of rm -rf in integration test helper (more portable)"),
  ("49b66733", Override.mk "REIMPLEMENT" "Tests: upstream disables ctrl-c integration test due to flake; decide whether to stabilize or disable in llxprt"),
  ("99c7108b", Override.mk "REIMPLEMENT" "Tests: substantial run_shell_command + harness fixes, but touches missing interactive test file; port changes to existing llxprt tests/harness"),
  ("769fe8b1", Override.mk "REIMPLEMENT" "Tests: upstream replaces/rewrites replace integration tests for determinism; port suite changes (llxprt replace tests diverged)"),
  ("6f0107e7", Override.mk "REIMPLEMENT" "Tools: robust URL validation for web_fetch; port into google-web-fetch/direct-web-fetch (llxprt renamed tools)"),
  ("4f5b3357", Override.mk "REIMPLEMENT" "Tests: adds cyclic-schema MCP integration test + helper updates; port new test file and adapt to llxprt"),
  ("a0893801", Override.mk "SKIP" "Docs formatting-only (very noisy). Optional if you want docs parity; llxprt already enforces 80-col Prettier."),
  ("b0b1be0c", Override.mk "SKIP" "Tests: upstream skips flaky tests; prefer deflake tooling + targeted stabilizations over blanket skips"),
  ("3ea5581a", Override.mk "SKIP" "Tests: upstream disables flaky tests; prefer deflake tooling + targeted stabilizations over blanket disables"),
  ("3d245752", Override.mk "SKIP" "Tool naming refactor conflicts with llxprt toolset/renames"),
  ("ae02236c", Override.mk "SKIP" "Path-correction refactor is largely redundant with llxprt smart-edit behavior"),
  ("83075b28", Override.mk "SKIP" "Telemetry log/event refactor (high churn; limited value without upstream telemetry stack)"),
  ("2a7c7166", Override.mk "SKIP" "Repo-specific CI action change (not applicable to llxprt CI)"),
  ("061a89fc", Override.mk "SKIP" "Integration-test retry toggles are repo-specific; evaluate separately with llxprt deflake needs"),
  ("7b06a0be", Override.mk "PICK" "Tests: use rmSync instead of rm -rf in integration test helper (more portable)"),
  ("0a3e492e", Override.mk "SKIP" "Upstream UI flicker integration test not carried in llxprt (and depends on upstream UI metrics)"),
  ("fda3b543", Override.mk "SKIP" "Unskips an upstream interactive compression test that llxprt does not currently carry; would likely add flake")
]

/-- Lookup in a Python dict literal built from `entries` in order:
a later binding of the same key overwrites an earlier one. -/
def dictLookup (entries : List (String × Override)) (key : String) : Option Override :=
  entries.foldl (fun acc e => if e.1 == key then some e.2 else acc) none

/-- The classifier `decide(commit)` of generate_cherries.py
(20251215gemerge), translated clause by clause: override-table lookup first,
then the fallback chain (clearcut-logger file paths, release/version-bump
subjects, reverts, single-tag area subsets, topic keywords, markdown
cleanup, a2a publishing, default). `areas <= {"x"}` in Python is the subset
test on `set(commit["areas"])`, i.e. every listed area equals "x". -/
def decide (c : Commit) : Override :=
  let lower := lowerStr c.subject
  match dictLookup OVERRIDES c.short with
  | some ov => ov
  | none =>
    if c.files.any (fun f => strHas f "clearcut-logger") then
      Override.mk "SKIP" "Touches ClearcutLogger (removed in llxprt)"
    else if strStarts lower "chore(release):" || strStarts lower "fix(patch):" then
      Override.mk "SKIP" "Upstream release/versioning"
    else if strHas lower "pre releases" then
      Override.mk "SKIP" "Upstream release/versioning"
    else if strStarts lower "revert " then
      Override.mk "SKIP" "Upstream revert (skip unless original was picked)"
    else if c.areas.all (fun a => a == "docs") then
      Override.mk "SKIP" "Docs only"
    else if c.areas.all (fun a => a == "github") then
      Override.mk "SKIP" "CI/workflow only"
    else if c.areas.all (fun a => a == "integration-tests") then
      Override.mk "SKIP" "Upstream integration tests only"
    else if strHas lower "model routing" || strHas lower "fallback" then
      Override.mk "SKIP" "Model routing/fallback not used in llxprt"
    else if strHas lower "codebase investigator" then
      Override.mk "SKIP" "CodebaseInvestigator disabled in llxprt"
    else if strHas lower "cleanup(markdown)" then
      Override.mk "SKIP" "Docs/format churn"
    else if strHas lower "a2a" && (strHas lower "publish" || strHas lower "publishing") then
      Override.mk "SKIP" "A2A publishing/release process"
    else
      Override.mk "SKIP" "Not selected for llxprt (low value or conflicts)"

/-- The PICK rows of SUMMARY.md as built in `main`:
`picks = [(c, d) for _, c, d in rows if d.decision == "PICK"]`, one summary
row per element, in input order. -/
def summary_picks (commits : List Commit) : List Commit :=
  commits.filter (fun c => (decide c).decision == "PICK")

/-- The REIMPLEMENT rows of SUMMARY.md as built in `main`:
`reimpl = [(c, d) for _, c, d in rows if d.decision == "REIMPLEMENT"]`. -/
def summary_reimpl (commits : List Commit) : List Commit :=
  commits.filter (fun c => (decide c).decision == "REIMPLEMENT")

end G1215

namespace G0104

/-- The Python set literal `PICKS` of generate_cherries.py (20260104gmerge),
as a list of its elements in source order (only membership is ever used). -/
def PICKS : List String := [
  "4f17eae5",
  "d38ab079",
  "2e6d69c9",
  "47f69317",
  "8c1656bf",
  "cfaa95a2",
  "60420e52",
  "a9083b9d",
  "b734723d",
  "c71b7491",
  "991bd373",
  "a4403339",
  "22f725eb",
  "406f0baa",
  "d42da871",
  "3a1d3769",
  "2ef38065",
  "23e52f0f",
  "f3ffaf09",
  "0ded546a",
  "659b0557",
  "4a0fcd05",
  "2b61ac53",
  "8da47db1",
  "7c086fe5",
  "e4226b8a",
  "4d2a1111",
  "426d3614",
  "b4a405c6",
  "d3bdbc69",
  "21163a16",
  "cedf0235",
  "dd42893d",
  "d065c3ca",
  "0fd9ff0f",
  "518a9ca3",
  "d0ab6e99",
  "397e52da",
  "61a71c4f",
  "d5a06d3c",
  "31f58a1f",
  "70a99af1",
  "72b16b3a",
  "654c5550",
  "62dc9683",
  "e72c00cf",
  "cf16d167",
  "16f5f767",
  "ccf8d0ca",
  "5b750f51",
  "ed9f714f",
  "306e12c2",
  "c7243997",
  "2940b508",
  "0d7da7ec",
  "847c6e7f",
  "ce40a653",
  "b1bbef43",
  "49bde9fc",
  "6ded45e5",
  "d2c9c5b3",
  "0658b4aa"
]

/-- The Python set literal `REIMPL` of generate_cherries.py (20260104gmerge). -/
def REIMPL : List String := [
  "130f0a02",
  "9049f8f8",
  "8731309d",
  "dd3b1cb6",
  "9b9ab609",
  "f22aa72c",
  "b8df8b2a",
  "c9c633be",
  "dcf362bc",
  "937c15c6",
  "c8518d6a",
  "08e87a59",
  "f4330c9f",
  "995ae717",
  "b364f376",
  "98eef9ba",
  "7dd2d8f7",
  "bf80263b",
  "36de6862",
  "cc7e1472",
  "05930d5e"
]

/-- `decision_for(short)` of generate_cherries.py (20260104gmerge): PICKS
membership first, then REIMPL, else SKIP. -/
def decision_for (short : String) : String :=
  if PICKS.contains short then "PICK"
  else if REIMPL.contains short then "REIMPLEMENT"
  else "SKIP"

/-- The commits enumerated under "PICK highlights" in SUMMARY.md, as built
in `main`: `[c for c in commits if c["short"] in PICKS][:20]`. -/
def summary_pick_highlights (commits : List Commit) : List Commit :=
  (commits.filter (fun c => PICKS.contains c.short)).take 20

/-- The commits enumerated under "REIMPLEMENT highlights" in SUMMARY.md:
`[c for c in commits if c["short"] in REIMPL]`. -/
def summary_reimpl_highlights (commits : List Commit) : List Commit :=
  commits.filter (fun c => REIMPL.contains c.short)

end G0104

namespace PlanArtifacts

/-- One batch of generate_plan_artifacts.py, mirroring the dict
`{"type": ..., "commits": [...]}` appended by `build_batches`. -/
structure Batch where
  type : String
  commits : List Commit
deriving DecidableEq, Repr

/-- The `solo_picks` set fixed inside `build_batches`. -/
def solo_picks : List String := [
  "3a1d3769",
  "2ef38065",
  "23e52f0f",
  "847c6e7f",
  "ce40a653"
]

/-- The loop body of `build_batches` as a recursion over the remaining
commits; `current` is the open PICK group the Python loop mutates. Each
Python `batches.append` becomes an emitted element, in the same order. -/
def build_batches_go (picks reimpl : List String) : List Commit → List Commit → List Batch
  | current, [] =>
    if current = [] then [] else [Batch.mk "PICK" current]
  | current, c :: rest =>
    if picks.contains c.short then
      if solo_picks.contains c.short then
        (if current = [] then [] else [Batch.mk "PICK" current])
          ++ Batch.mk "PICK" [c] :: build_batches_go picks reimpl [] rest
      else
        if (current ++ [c]).length = 5 then
          Batch.mk "PICK" (current ++ [c]) :: build_batches_go picks reimpl [] rest
        else
          build_batches_go picks reimpl (current ++ [c]) rest
    else if reimpl.contains c.short then
      (if current = [] then [] else [Batch.mk "PICK" current])
        ++ Batch.mk "REIMPLEMENT" [c] :: build_batches_go picks reimpl [] rest
    else
      build_batches_go picks reimpl current rest

/-- `build_batches(commits, picks, reimpl)` of generate_plan_artifacts.py:
the single forward pass starting from an empty open group. -/
def build_batches (commits : List Commit) (picks reimpl : List String) : List Batch :=
  build_batches_go picks reimpl [] commits

/-- The concatenation of the member lists of a batch sequence, in order. -/
def batchCommits (bs : List Batch) : List Commit :=
  (bs.map Batch.commits).flatten

end PlanArtifacts

/-- C2: if a commit's `short` key is present in the curated override table,
`decide` returns exactly the stored (decision, rationale) pair, whatever the
commit's subject, files and areas are: the fallback predicates never
influence the result. -/
theorem decide_override_precedence (short : String) (ov : G1215.Override)
    (h : G1215.dictLookup G1215.OVERRIDES short = some ov) :
    ∀ sha date subject files areas m,
      G1215.decide (Commit.mk sha short date subject files areas m) = ov := by
  intro sha date subject files areas m
  unfold G1215.decide
  simp only [h]

/-- C2 witness: the override for "b92e3bca" is returned verbatim on a commit
whose subject, files and areas would otherwise match several fallback
rules. -/
theorem decide_override_precedence_witness :
    G1215.decide (Commit.mk "sha" "b92e3bca" "2025-01-01" "revert chore(release): model routing"
        ["packages/core/src/telemetry/clearcut-logger/clearcut-logger.ts"] ["docs"] false) =
      G1215.Override.mk "PICK" "MCP: server removal persists to settings" :=
  decide_override_precedence "b92e3bca"
    (G1215.Override.mk "PICK" "MCP: server removal persists to settings") (by decide)
    "sha" "2025-01-01" "revert chore(release): model routing"
    ["packages/core/src/telemetry/clearcut-logger/clearcut-logger.ts"] ["docs"] false

/-- C6: a commit not in the override table whose files contain a path with
the denylisted "clearcut-logger" pattern is classified SKIP (with the
ClearcutLogger rationale), regardless of subject and areas. -/
theorem decide_clearcut_skip (c : Commit)
    (hov : G1215.dictLookup G1215.OVERRIDES c.short = none)
    (hf : c.files.any (fun f => strHas f "clearcut-logger") = true) :
    (G1215.decide c).decision = "SKIP" ∧
    G1215.decide c = G1215.Override.mk "SKIP" "Touches ClearcutLogger (removed in llxprt)" := by
  unfold G1215.decide
  simp only [hov, hf]
  exact ⟨rfl, rfl⟩

/-- C6 witness: a telemetry-touching commit with a harmless subject and no
skippable area is still SKIP. -/
theorem decide_clearcut_skip_witness :
    (G1215.decide (Commit.mk "sha" "00000001" "2025-01-01" "feat: improve logging"
        ["packages/core/src/telemetry/clearcut-logger/event.ts"] ["core"] false)).decision
      = "SKIP" :=
  (decide_clearcut_skip
    (Commit.mk "sha" "00000001" "2025-01-01" "feat: improve logging"
      ["packages/core/src/telemetry/clearcut-logger/event.ts"] ["core"] false)
    (by decide) (by decide)).1

/-- C9: the classifier is a total deterministic function: every commit is
assigned exactly one (decision, rationale) pair, and equal inputs under the
same static tables give equal outputs. -/
theorem decide_total_deterministic :
    (∀ c : Commit, ∃! ov : G1215.Override, G1215.decide c = ov) ∧
    (∀ c₁ c₂ : Commit, c₁ = c₂ → G1215.decide c₁ = G1215.decide c₂) := by
  refine ⟨fun c => ⟨G1215.decide c, rfl, fun y h => h.symm⟩, fun c₁ c₂ h => by rw [h]⟩

/-- C9 witness: two calls of `decide` on the same concrete commit agree. -/
theorem decide_total_deterministic_witness :
    G1215.decide (Commit.mk "sha" "00000002" "2025-01-01" "add new widget" [] [] false) =
      G1215.decide (Commit.mk "sha" "00000002" "2025-01-01" "add new widget" [] [] false) :=
  decide_total_deterministic.2
    (Commit.mk "sha" "00000002" "2025-01-01" "add new widget" [] [] false)
    (Commit.mk "sha" "00000002" "2025-01-01" "add new widget" [] [] false) rfl

/-- C3 counterexample: a commit absent from every table with empty files and
areas and subject "add new widget" does NOT fall through to the default
rationale: the empty area set satisfies the Python subset test
`areas <= {"docs"}`, so rule 5 fires and the result is "Docs only". -/
theorem widget_commit_docs_rationale :
    G1215.dictLookup G1215.OVERRIDES "00000000" = none ∧
    G1215.decide (Commit.mk "sha" "00000000" "2025-01-01" "add new widget" [] [] false) =
      G1215.Override.mk "SKIP" "Docs only" ∧
    G1215.Override.mk "SKIP" "Docs only" ≠
      G1215.Override.mk "SKIP" "Not selected for llxprt (low value or conflicts)" := by
  exact ⟨by decide, by decide, by decide⟩

set_option maxHeartbeats 1000000 in
/-- C3 amended: a commit absent from the override table with empty files and
areas never triggers the telemetry-path rule, but the empty area set
satisfies the subset test of the area rule, so (when no subject rule fires
earlier) it receives the docs rationale; in particular with subject
"add new widget" the result is SKIP "Docs only", not the default. -/
theorem decide_empty_files_areas_amended (sha short date : String) (m : Bool)
    (hov : G1215.dictLookup G1215.OVERRIDES short = none) :
    (∀ subject, G1215.decide (Commit.mk sha short date subject [] [] m) ≠
        G1215.Override.mk "SKIP" "Touches ClearcutLogger (removed in llxprt)") ∧
    G1215.decide (Commit.mk sha short date "add new widget" [] [] m) =
      G1215.Override.mk "SKIP" "Docs only" := by
  constructor
  · intro subject
    unfold G1215.decide
    simp only [hov]
    clear hov
    repeat' split
    all_goals simp_all
  · unfold G1215.decide
    simp only [hov]
    rfl

/-- C3 amended claim witness at a concrete commit. -/
theorem decide_empty_files_areas_amended_witness :
    G1215.decide (Commit.mk "sha" "00000003" "2025-01-01" "fix: stuff" [] [] false) ≠
      G1215.Override.mk "SKIP" "Touches ClearcutLogger (removed in llxprt)" :=
  (decide_empty_files_areas_amended "sha" "00000003" "2025-01-01" false (by decide)).1
    "fix: stuff"

/-- C8 counterexample: a commit with no override entry, no telemetry-path
match and areas exactly docs, whose subject begins with "revert ", is
classified by the earlier revert rule, not with the docs-specific
rationale. -/
theorem docs_commit_revert_rationale :
    G1215.dictLookup G1215.OVERRIDES "deadbeef" = none ∧
    G1215.decide (Commit.mk "sha" "deadbeef" "2025-01-01" "revert foo" [] ["docs"] false) =
      G1215.Override.mk "SKIP" "Upstream revert (skip unless original was picked)" ∧
    G1215.Override.mk "SKIP" "Upstream revert (skip unless original was picked)" ≠
      G1215.Override.mk "SKIP" "Docs only" := by
  exact ⟨by decide, by decide, by decide⟩

set_option maxHeartbeats 1000000 in
/-- C8 amended: a commit with no override entry, no telemetry-path match and
areas exactly docs is always classified SKIP (never REIMPLEMENT), and
receives the docs-specific rationale provided its subject does not match
one of the earlier release/revert subject rules. -/
theorem decide_docs_area_amended (c : Commit)
    (hov : G1215.dictLookup G1215.OVERRIDES c.short = none)
    (htel : c.files.any (fun f => strHas f "clearcut-logger") = false)
    (hdocs : c.areas.all (fun a => a == "docs") = true) :
    (G1215.decide c).decision = "SKIP" ∧
    (strStarts (lowerStr c.subject) "chore(release):" = false →
     strStarts (lowerStr c.subject) "fix(patch):" = false →
     strHas (lowerStr c.subject) "pre releases" = false →
     strStarts (lowerStr c.subject) "revert " = false →
     G1215.decide c = G1215.Override.mk "SKIP" "Docs only") := by
  constructor
  · unfold G1215.decide
    simp only [hov]
    clear hov
    repeat' split
    all_goals rfl
  · intro h1 h2 h3 h4
    unfold G1215.decide
    simp only [hov]
    clear hov
    simp [htel, hdocs, h1, h2, h3, h4]

/-- C8 amended claim witness: a docs-area commit with a neutral subject gets
the docs rationale. -/
theorem decide_docs_area_amended_witness :
    G1215.decide (Commit.mk "sha" "deadbee2" "2025-01-01" "update readme" ["docs/a.md"] ["docs"] false) =
      G1215.Override.mk "SKIP" "Docs only" :=
  (decide_docs_area_amended
    (Commit.mk "sha" "deadbee2" "2025-01-01" "update readme" ["docs/a.md"] ["docs"] false)
    (by decide) (by decide) (by decide)).2 (by decide) (by decide) (by decide) (by decide)

/-- C10: `decision_for` is total and resolves membership in a fixed order:
PICK for any short in PICKS (even one also in REIMPL), REIMPLEMENT for a
short in REIMPL but not PICKS, SKIP otherwise; it never fails on unknown
identifiers. -/
theorem decision_for_resolution (s : String) :
    (s ∈ G0104.PICKS → G0104.decision_for s = "PICK") ∧
    (s ∉ G0104.PICKS → s ∈ G0104.REIMPL →
      G0104.decision_for s = "REIMPLEMENT") ∧
    (s ∉ G0104.PICKS → s ∉ G0104.REIMPL →
      G0104.decision_for s = "SKIP") :=
  ⟨fun h => by simp [G0104.decision_for, h],
   fun h1 h2 => by simp [G0104.decision_for, h1, h2],
   fun h1 h2 => by simp [G0104.decision_for, h1, h2]⟩

/-- C10 witness: one identifier from each class, including an identifier
absent from every table, on which `decision_for` returns SKIP rather than
failing. -/
theorem decision_for_resolution_witness :
    G0104.decision_for "4f17eae5" = "PICK" ∧
    G0104.decision_for "130f0a02" = "REIMPLEMENT" ∧
    G0104.decision_for "ffffffff" = "SKIP" :=
  ⟨(decision_for_resolution "4f17eae5").1 (by decide),
   (decision_for_resolution "130f0a02").2.1 (by decide) (by decide),
   (decision_for_resolution "ffffffff").2.2 (by decide) (by decide)⟩

/-- Example commit A of the spec's batch example: PICK-classified, not solo. -/
def exA : Commit := Commit.mk "shaA" "4f17eae5" "2025-12-01" "sA" [] [] false

/-- Example commit B: PICK-classified, not solo. -/
def exB : Commit := Commit.mk "shaB" "d38ab079" "2025-12-02" "sB" [] [] false

/-- Example commit C: SKIP-classified (in neither PICKS nor REIMPL). -/
def exC : Commit := Commit.mk "shaC" "8a937ebf" "2025-12-03" "sC" [] [] false

/-- Example commit D: PICK-classified and solo-flagged. -/
def exD : Commit := Commit.mk "shaD" "3a1d3769" "2025-12-04" "sD" [] [] false

/-- Example commit E: PICK-classified, not solo. -/
def exE : Commit := Commit.mk "shaE" "2e6d69c9" "2025-12-05" "sE" [] [] false

/-- Example commit F: REIMPLEMENT-classified. -/
def exF : Commit := Commit.mk "shaF" "130f0a02" "2025-12-06" "sF" [] [] false

/-- C4: on the input [A(PICK), B(PICK), C(SKIP), D(PICK solo), E(PICK),
F(REIMPLEMENT)] (classifications witnessed by `decision_for` and the
`solo_picks` set), `build_batches` returns exactly the four batches
[{A,B}], [{D}], [{E}], [{F}], the last one a REIMPLEMENT batch. -/
theorem build_batches_example :
    G0104.decision_for exA.short = "PICK" ∧
    G0104.decision_for exB.short = "PICK" ∧
    G0104.decision_for exC.short = "SKIP" ∧
    G0104.decision_for exD.short = "PICK" ∧
    PlanArtifacts.solo_picks.contains exD.short = true ∧
    G0104.decision_for exE.short = "PICK" ∧
    G0104.decision_for exF.short = "REIMPLEMENT" ∧
    PlanArtifacts.build_batches [exA, exB, exC, exD, exE, exF] G0104.PICKS G0104.REIMPL =
      [PlanArtifacts.Batch.mk "PICK" [exA, exB],
       PlanArtifacts.Batch.mk "PICK" [exD],
       PlanArtifacts.Batch.mk "PICK" [exE],
       PlanArtifacts.Batch.mk "REIMPLEMENT" [exF]] := by
  refine ⟨by decide, by decide, by decide, by decide, by decide, by decide, by decide, by decide⟩

/-- Helper: the concatenated members of the batches produced from any open
group `current` are `current` followed by the PICK/REIMPL-classified
subsequence of the remaining commits. -/
theorem build_batches_go_flatten (picks reimpl : List String)
    (commits : List Commit) : ∀ current : List Commit,
    ((PlanArtifacts.build_batches_go picks reimpl current commits).map
        PlanArtifacts.Batch.commits).flatten
      = current ++ commits.filter (fun c => picks.contains c.short || reimpl.contains c.short) := by
  induction commits with
  | nil =>
    intro current
    by_cases h : current = [] <;> simp [PlanArtifacts.build_batches_go, h]
  | cons c rest ih =>
    intro current
    simp only [PlanArtifacts.build_batches_go]
    by_cases hp : c.short ∈ picks
    · by_cases hs : c.short ∈ PlanArtifacts.solo_picks
      · by_cases hc : current = [] <;>
          simp [hp, hs, hc, ih, List.filter_cons]
      · by_cases h5 : current.length = 4
        · simp [hp, hs, h5, ih, List.filter_cons]
        · simp [hp, hs, h5, ih, List.filter_cons]
    · by_cases hr : c.short ∈ reimpl
      · by_cases hc : current = [] <;>
          simp [hp, hr, hc, ih, List.filter_cons]
      · simp [hp, hr, ih, List.filter_cons]

/-- C1: concatenating the member lists of the batches `build_batches`
produces, in batch order, yields exactly the subsequence of input commits
whose shorts are PICK- or REIMPLEMENT-classified, in input order (hence no
commit is duplicated across batches and no SKIP commit appears). -/
theorem build_batches_members (commits : List Commit) (picks reimpl : List String) :
    PlanArtifacts.batchCommits (PlanArtifacts.build_batches commits picks reimpl)
      = commits.filter (fun c => picks.contains c.short || reimpl.contains c.short) := by
  simpa [PlanArtifacts.batchCommits, PlanArtifacts.build_batches] using
    build_batches_go_flatten picks reimpl commits []

/-- The per-batch invariant of the batch planner: a batch is typed PICK or
REIMPLEMENT, holds 1 to 5 commits, a REIMPLEMENT batch is a singleton, and
a batch containing a solo-flagged commit or a commit not classified PICK is
a singleton. -/
def GoodBatch (picks : List String) (b : PlanArtifacts.Batch) : Prop :=
  (b.type = "PICK" ∨ b.type = "REIMPLEMENT") ∧
  1 ≤ b.commits.length ∧ b.commits.length ≤ 5 ∧
  (b.type = "REIMPLEMENT" → b.commits.length = 1) ∧
  (∀ x ∈ b.commits, x.short ∈ PlanArtifacts.solo_picks → b.commits.length = 1) ∧
  (∀ x ∈ b.commits, x.short ∉ picks → b.commits.length = 1)

/-- Helper: a flushed open group of 1 to 4 pick-classified, non-solo commits
is a good PICK batch. -/
theorem flush_good (picks : List String) (current : List Commit)
    (hlen : current.length ≤ 4) (hne : current ≠ [])
    (hmem : ∀ x ∈ current, x.short ∈ picks ∧ x.short ∉ PlanArtifacts.solo_picks) :
    GoodBatch picks (PlanArtifacts.Batch.mk "PICK" current) := by
  refine ⟨Or.inl rfl, ?_, ?_, ?_, ?_, ?_⟩
  · exact List.length_pos.mpr hne
  · exact le_trans hlen (by norm_num)
  · intro h; simp at h
  · intro x hx hsolo; exact absurd hsolo (hmem x hx).2
  · intro x hx hnp; exact absurd (hmem x hx).1 hnp

/-- Helper: a singleton batch of either type is good. -/
theorem singleton_good (picks : List String) (t : String) (c : Commit)
    (ht : t = "PICK" ∨ t = "REIMPLEMENT") :
    GoodBatch picks (PlanArtifacts.Batch.mk t [c]) :=
  ⟨ht, by simp, by simp, fun _ => rfl, fun _ _ _ => rfl, fun _ _ _ => rfl⟩

/-- Helper: a group flushed because it reached five pick-classified,
non-solo members is a good PICK batch. -/
theorem fullflush_good (picks : List String) (cur : List Commit)
    (h5 : cur.length = 5)
    (hmem : ∀ x ∈ cur, x.short ∈ picks ∧ x.short ∉ PlanArtifacts.solo_picks) :
    GoodBatch picks (PlanArtifacts.Batch.mk "PICK" cur) := by
  refine ⟨Or.inl rfl, by simp [h5], by simp [h5], ?_, ?_, ?_⟩
  · intro h; simp at h
  · intro x hx hsolo; exact absurd hsolo (hmem x hx).2
  · intro x hx hnp; exact absurd (hmem x hx).1 hnp

/-- Helper: every batch produced by the planner's loop from a well-formed
open group (at most 4 members, all pick-classified and non-solo) satisfies
the batch invariant. -/
theorem build_batches_go_good (picks reimpl : List String)
    (commits : List Commit) : ∀ current : List Commit,
    current.length ≤ 4 →
    (∀ x ∈ current, x.short ∈ picks ∧ x.short ∉ PlanArtifacts.solo_picks) →
    ∀ b ∈ PlanArtifacts.build_batches_go picks reimpl current commits,
      GoodBatch picks b := by
  induction commits with
  | nil =>
    intro current hlen hmem b hb
    simp only [PlanArtifacts.build_batches_go] at hb
    by_cases hc : current = []
    · simp [hc] at hb
    · simp only [if_neg hc, List.mem_singleton] at hb
      subst hb
      exact flush_good picks current hlen hc hmem
  | cons c rest ih =>
    intro current hlen hmem b hb
    simp only [PlanArtifacts.build_batches_go] at hb
    split at hb
    · -- c is pick-classified
      next hp =>
      replace hp : c.short ∈ picks := by simpa using hp
      split at hb
      · -- c is solo
        next hs =>
        replace hs : c.short ∈ PlanArtifacts.solo_picks := by simpa using hs
        rcases List.mem_append.1 hb with hfl | hco
        · by_cases hc : current = []
          · simp [hc] at hfl
          · simp only [if_neg hc, List.mem_singleton] at hfl
            subst hfl
            exact flush_good picks current hlen hc hmem
        · rcases List.mem_cons.1 hco with hsing | hrest
          · subst hsing
            exact singleton_good picks "PICK" c (Or.inl rfl)
          · exact ih [] (by simp) (by simp) b hrest
      · -- c is not solo
        next hs =>
        replace hs : c.short ∉ PlanArtifacts.solo_picks := by simpa using hs
        have hmem2 : ∀ x ∈ current ++ [c],
            x.short ∈ picks ∧ x.short ∉ PlanArtifacts.solo_picks := by
          intro x hx
          rcases List.mem_append.1 hx with hx1 | hx2
          · exact hmem x hx1
          · rcases List.mem_singleton.1 hx2 with rfl
            exact ⟨hp, hs⟩
        split at hb
        · -- the group reached five members and is flushed
          next h5 =>
          rcases List.mem_cons.1 hb with hfull | hrest
          · subst hfull
            exact fullflush_good picks (current ++ [c]) h5 hmem2
          · exact ih [] (by simp) (by simp) b hrest
        · -- the group stays open
          next h5 =>
          have hlen2 : (current ++ [c]).length ≤ 4 := by
            simp only [List.length_append, List.length_singleton] at h5 ⊢
            omega
          exact ih (current ++ [c]) hlen2 hmem2 b hb
    · -- c is not pick-classified
      next hp =>
      replace hp : c.short ∉ picks := by simpa using hp
      split at hb
      · -- c is reimpl-classified
        rcases List.mem_append.1 hb with hfl | hco
        · by_cases hc : current = []
          · simp [hc] at hfl
          · simp only [if_neg hc, List.mem_singleton] at hfl
            subst hfl
            exact flush_good picks current hlen hc hmem
        · rcases List.mem_cons.1 hco with hsing | hrest
          · subst hsing
            exact singleton_good picks "REIMPLEMENT" c (Or.inr rfl)
          · exact ih [] (by simp) (by simp) b hrest
      · -- c is skipped
        exact ih current hlen hmem b hb

/-- C5: in the planner's output no PICK batch exceeds 5 members, every batch
(PICK ones included) has at least 1 member, a solo-flagged PICK commit is
alone in its batch, and a REIMPLEMENT-classified commit (in `reimpl`, not in
`picks`) is alone in its batch, whose type is REIMPLEMENT-singleton. -/
theorem build_batches_sizes (commits : List Commit) (picks reimpl : List String) :
    ∀ b ∈ PlanArtifacts.build_batches commits picks reimpl,
      (b.type = "PICK" → 1 ≤ b.commits.length ∧ b.commits.length ≤ 5) ∧
      (b.type = "REIMPLEMENT" → b.commits.length = 1) ∧
      (∀ x ∈ b.commits, x.short ∈ picks → x.short ∈ PlanArtifacts.solo_picks →
        b.commits.length = 1) ∧
      (∀ x ∈ b.commits, x.short ∈ reimpl → x.short ∉ picks → b.commits.length = 1) := by
  intro b hb
  have h := build_batches_go_good picks reimpl commits [] (by simp) (by simp) b hb
  exact ⟨fun _ => ⟨h.2.1, h.2.2.1⟩, h.2.2.2.1,
    fun x hx _ hsolo => h.2.2.2.2.1 x hx hsolo,
    fun x hx _ hnp => h.2.2.2.2.2 x hx hnp⟩

/-- C5 witness: in the example run, the first batch is a PICK batch with
between 1 and 5 members. -/
theorem build_batches_sizes_witness :
    1 ≤ (PlanArtifacts.Batch.mk "PICK" [exA, exB]).commits.length ∧
    (PlanArtifacts.Batch.mk "PICK" [exA, exB]).commits.length ≤ 5 :=
  (build_batches_sizes [exA, exB, exC, exD, exE, exF] G0104.PICKS G0104.REIMPL
    (PlanArtifacts.Batch.mk "PICK" [exA, exB]) (by decide)).1 rfl

/-- A minimal commit whose sha and short are both `s`, used to build
concrete summary inputs. -/
def mkPickCommit (s : String) : Commit := Commit.mk s s "" "" [] [] false

/-- C7 counterexample: on an input of 21 distinct PICK-classified commits,
the 20260104 summary's "PICK highlights" section (which slices the filtered
list with `[:20]`) omits the 21st PICK commit entirely, so the summary does
not enumerate every classified commit. -/
theorem summary_omits_21st_pick :
    G0104.PICKS.contains "659b0557" = true ∧
    mkPickCommit "659b0557" ∈ (G0104.PICKS.take 21).map mkPickCommit ∧
    mkPickCommit "659b0557" ∉
      G0104.summary_pick_highlights ((G0104.PICKS.take 21).map mkPickCommit) := by
  exact ⟨by decide, by decide, by decide⟩

/-- C7 amended: on a duplicate-free input, the 20251215 summary enumerates
every PICK- and every REIMPLEMENT-classified commit exactly once, in input
order (its sections are sublists of the input); the 20260104 summary
enumerates every REIMPLEMENT commit exactly once, but its PICK section is
only a prefix slice of the PICK subsequence: at most one occurrence per
commit and exactly min 20 (number of picks) entries, so PICK commits beyond
the 20th are omitted. -/
theorem summary_enumeration_amended (commits : List Commit) (hnd : commits.Nodup) :
    (∀ c ∈ commits, (G1215.decide c).decision = "PICK" →
      (G1215.summary_picks commits).count c = 1) ∧
    (∀ c ∈ commits, (G1215.decide c).decision = "REIMPLEMENT" →
      (G1215.summary_reimpl commits).count c = 1) ∧
    List.Sublist (G1215.summary_picks commits) commits ∧
    List.Sublist (G1215.summary_reimpl commits) commits ∧
    (∀ c ∈ commits, c.short ∈ G0104.REIMPL →
      (G0104.summary_reimpl_highlights commits).count c = 1) ∧
    List.Sublist (G0104.summary_pick_highlights commits)
      (commits.filter (fun c => G0104.PICKS.contains c.short)) ∧
    (G0104.summary_pick_highlights commits).length =
      min 20 (commits.filter (fun c => G0104.PICKS.contains c.short)).length ∧
    (∀ c : Commit, (G0104.summary_pick_highlights commits).count c ≤ 1) := by
  refine ⟨?_, ?_, ?_, ?_, ?_, ?_, ?_, ?_⟩
  · intro c hc h
    unfold G1215.summary_picks
    rw [List.count_filter (by simp [h])]
    exact List.count_eq_one_of_mem hnd hc
  · intro c hc h
    unfold G1215.summary_reimpl
    rw [List.count_filter (by simp [h])]
    exact List.count_eq_one_of_mem hnd hc
  · exact List.filter_sublist commits
  · exact List.filter_sublist commits
  · intro c hc h
    unfold G0104.summary_reimpl_highlights
    rw [List.count_filter (by simpa using h)]
    exact List.count_eq_one_of_mem hnd hc
  · exact List.take_sublist 20 _
  · exact List.length_take 20 _
  · intro c
    exact le_trans ((List.take_sublist 20 _).count_le c)
      (le_trans ((List.filter_sublist commits).count_le c)
        (List.nodup_iff_count_le_one.1 hnd c))

/-- C7 amended claim witness: on a one-commit input whose commit is
PICK-classified by the 20251215 overrides, the summary lists it exactly
once. -/
theorem summary_enumeration_amended_witness :
    (G1215.summary_picks [mkPickCommit "b92e3bca"]).count (mkPickCommit "b92e3bca") = 1 :=
  (summary_enumeration_amended [mkPickCommit "b92e3bca"] (by decide)).1
    (mkPickCommit "b92e3bca") (by decide) (by decide)
